import Mathlib

/-!
Verification development for the `gestion-ov` payroll document generator
(`src/python/generate_document.py` and `src/python/generate_role.py`).

Monetary amounts are embedded as exact rationals (`ℚ`).  Python rounds with
round-half-to-even (both the built-in `round` and `f"{v:.2f}"` formatting),
which is embedded below as `rhe`/`round2` over `ℚ`.  Day counts in the input
payload are integral, so day fields are embedded as `ℤ`.
-/

namespace GestionOV

/-- Round-half-to-even of a rational to an integer, the rounding used by
Python's built-in `round` and by `f"{v:.2f}"` formatting. -/
def rhe (q : ℚ) : ℤ :=
  if q - ⌊q⌋ < 1/2 then ⌊q⌋
  else if 1/2 < q - ⌊q⌋ then ⌊q⌋ + 1
  else if 2 ∣ ⌊q⌋ then ⌊q⌋ else ⌊q⌋ + 1

/-- `round2(value) = float(f"{value:.2f}")`: round to 2 decimal places
(half-to-even), from `generate_document.py`. -/
def round2 (q : ℚ) : ℚ := (rhe (100 * q) : ℚ) / 100

/-- A rational that is an exact multiple of 1/100 (a whole number of cents). -/
def TwoDec (q : ℚ) : Prop := ∃ m : ℤ, q = (m : ℚ) / 100

/-- A calendar date (year, month, day), as produced by Python's
`datetime.date`. -/
structure PDate where
  year : ℤ
  month : ℤ
  day : ℤ
deriving DecidableEq, Repr

/-- Python tuple comparison `(a1, a2) < (b1, b2)` (lexicographic). -/
def pairLt (a b : ℤ × ℤ) : Bool :=
  a.1 < b.1 || (a.1 = b.1 && a.2 < b.2)

/-- The birth-date input of a worker record, abstracted by the outcome
classes of `parse_date`: the field can be absent/empty, present but
unparseable, or a parseable date. -/
inductive Birth where
  | absent
  | unparseable
  | valid (d : PDate)
deriving DecidableEq, Repr

/-- Outcome of `parse_date` on a birth-date input: `None` for an absent or
unparseable value, the parsed date otherwise. -/
def parse_date : Birth → Option PDate
  | .absent => none
  | .unparseable => none
  | .valid d => some d

/-- `calculate_age_at(birth, ref)` from `generate_document.py`. -/
def calculate_age_at (birth : Birth) (ref : PDate) : Option ℤ :=
  match parse_date birth with
  | none => none
  | some b =>
      let age := ref.year - b.year
      if pairLt (ref.month, ref.day) (b.month, b.day) then some (age - 1) else some age

/-- `RCAR_RATE = 0.06` from `generate_document.py`. -/
def RCAR_RATE : ℚ := 6 / 100

/-- `calculate_igr_deduction(date_naissance, ref_date, gross_salary, age_limit)`
from `generate_document.py`: flat-rate deduction applied when the age is
unknown or at most the limit. -/
def calculate_igr_deduction (birth : Birth) (ref : PDate) (gross : ℚ) (ageLimit : ℤ) : ℚ :=
  match calculate_age_at birth ref with
  | none => round2 (gross * RCAR_RATE)
  | some age => if age ≤ ageLimit then round2 (gross * RCAR_RATE) else 0

/-- `calculate_net_salary` from `generate_document.py`. -/
def calculate_net_salary (birth : Birth) (ref : PDate) (gross : ℚ) (ageLimit : ℤ) : ℚ :=
  round2 (gross - calculate_igr_deduction birth ref gross ageLimit)

/-- One entry of `monthlyStats` in an RCAR worker record (only the two
fields read by `_generate_rcar_docx`). -/
structure MonthlyStat where
  days_worked : ℚ
  amount : ℚ
deriving DecidableEq, Repr

/-- A worker record from `report.rows`.  Only the fields the computation
core reads are embedded; the three payload aliases
`salaire_journalier`/`dailySalary`/`daily_salary` (resp.
`presenceDays`/`presence_days`) are collapsed into one field, since the
code reads them through a single truthy/presence chain.  Day counts in the
payload are whole numbers, embedded as `ℤ`. -/
structure Worker where
  nom_prenom : String := ""
  cin : String := ""
  type : String := ""
  days_worked : Option ℤ := none
  total_days : Option ℤ := none
  amount : Option ℚ := none
  total_amount : Option ℚ := none
  date_naissance : Birth := .absent
  presenceDays : List ℤ := []
  salaire_journalier : Option ℚ := none
  monthlyStats : List MonthlyStat := []
deriving Repr

/-- Python truthy fall-through `a or b` for an optional integer field:
a missing value or an explicit `0` falls through to `b`. -/
def truthyI (a : Option ℤ) (b : ℤ) : ℤ :=
  match a with
  | none => b
  | some x => if x = 0 then b else x

/-- Python truthy fall-through `a or b` for an optional rational field. -/
def truthyQ (a : Option ℚ) (b : ℚ) : ℚ :=
  match a with
  | none => b
  | some x => if x = 0 then b else x

/-- `int(w.get("days_worked") or w.get("total_days") or 0)` from
`build_workers_financial_rows`. -/
def effDays (w : Worker) : ℤ := truthyI w.days_worked (truthyI w.total_days 0)

/-- `float(w.get("amount") or w.get("total_amount") or 0.0)` from
`build_workers_financial_rows`. -/
def effGross (w : Worker) : ℚ := truthyQ w.amount (truthyQ w.total_amount 0)

/-- The skip test of `build_workers_financial_rows`:
`if days <= 0 or gross <= 0: continue`.  A worker is kept iff this is true. -/
def monthlyKeep (w : Worker) : Bool := effDays w > 0 && effGross w > 0

/-- One output row of `build_workers_financial_rows`. -/
structure RowOut where
  nom_prenom : String
  cin : String
  type : String
  days : ℤ
  gross : ℚ
  deduction : ℚ
  net : ℚ
deriving Repr

/-- The totals dict of `build_workers_financial_rows` (`days`, `gross`,
`deduction`, `net`). -/
structure Totals where
  days : ℚ
  gross : ℚ
  deduction : ℚ
  net : ℚ
deriving DecidableEq, Repr

/-- The per-worker deduction computed inside the loop of
`build_workers_financial_rows`. -/
def workerDeduction (ref : PDate) (ageLimit : ℤ) (w : Worker) : ℚ :=
  calculate_igr_deduction w.date_naissance ref (effGross w) ageLimit

/-- The per-worker net computed inside the loop of
`build_workers_financial_rows`: `net = round2(gross - deduction)`. -/
def workerNet (ref : PDate) (ageLimit : ℤ) (w : Worker) : ℚ :=
  round2 (effGross w - workerDeduction ref ageLimit w)

/-- The output row built for one kept worker in
`build_workers_financial_rows`. -/
def rowOf (ref : PDate) (ageLimit : ℤ) (w : Worker) : RowOut :=
  { nom_prenom := w.nom_prenom
    cin := w.cin
    type := w.type
    days := effDays w
    gross := round2 (effGross w)
    deduction := round2 (workerDeduction ref ageLimit w)
    net := round2 (workerNet ref ageLimit w) }

/-- `build_workers_financial_rows(report_rows, ref_date, age_limit)` from
`generate_document.py`: the loop skips workers with non-positive effective
days or gross, accumulates the raw per-worker values into the totals, and
rounds each accumulated total to 2 decimals at the end. -/
def build_workers_financial_rows (rows : List Worker) (ref : PDate) (ageLimit : ℤ) :
    List RowOut × Totals :=
  let kept := rows.filter monthlyKeep
  ( kept.map (rowOf ref ageLimit)
  , { days := round2 (((kept.map effDays).map (Int.cast : ℤ → ℚ)).sum)
      gross := round2 ((kept.map effGross).sum)
      deduction := round2 ((kept.map (workerDeduction ref ageLimit)).sum)
      net := round2 ((kept.map (workerNet ref ageLimit)).sum) } )

/-- `calendar.monthrange(year, month)[1]`: number of days of a month
(Gregorian leap rule). -/
def daysInMonth (year month : ℤ) : ℤ :=
  if month = 2 then
    if year % 4 = 0 ∧ (year % 100 ≠ 0 ∨ year % 400 = 0) then 29 else 28
  else if month = 4 ∨ month = 6 ∨ month = 9 ∨ month = 11 then 30
  else 31

/-- `month_start_end(year, month)` from `generate_document.py`. -/
def month_start_end (year month : ℤ) : PDate × PDate :=
  (⟨year, month, 1⟩, ⟨year, month, daysInMonth year month⟩)

/-- The daily salary read by `calculate_range_net_total`:
`float(w.get("salaire_journalier") or ... or 0.0)`. -/
def dailySalaryOf (w : Worker) : ℚ := truthyQ w.salaire_journalier 0

/-- `days_in_range` of `calculate_range_net_total`: the number of presence
day-numbers within `[start_day, end_day]`. -/
def daysInRange (w : Worker) (startDay endDay : ℤ) : ℤ :=
  (w.presenceDays.filter (fun d => startDay ≤ d && d ≤ endDay)).length

/-- The integer-cents contribution of one worker inside the loop of
`calculate_range_net_total` (`0` for a skipped worker). -/
def rangeContribCents (ref : PDate) (startDay endDay : ℤ) (ageLimit : ℤ) (w : Worker) : ℤ :=
  if dailySalaryOf w ≤ 0 then 0
  else if daysInRange w startDay endDay ≤ 0 then 0
  else
    let gross := round2 ((daysInRange w startDay endDay : ℚ) * dailySalaryOf w)
    let deduction := calculate_igr_deduction w.date_naissance ref gross ageLimit
    let net := round2 (gross - deduction)
    rhe (net * 100)

/-- `calculate_range_net_total(report_rows, year=.., month=.., start_day=..,
end_day=.., age_limit=..)` from `generate_document.py`: sums, in integer
cents, the nets of presence-day × daily-rate workers filtered to the day
range, using `date(year, month, end_day)` as the age reference. -/
def calculate_range_net_total (rows : List Worker) (year month startDay endDay ageLimit : ℤ) : ℚ :=
  let ref : PDate := ⟨year, month, endDay⟩
  ((rows.map (rangeContribCents ref startDay endDay ageLimit)).sum : ℚ) / 100

/-- The `days` value of one worker in `_generate_rcar_docx`: `total_days`
if present, else `days_worked`, else the `monthlyStats` day sum (presence
chain `in (None, "")`, so an explicit `0` is kept). -/
def rcarDays (w : Worker) : ℚ :=
  ((w.total_days.map (Int.cast : ℤ → ℚ)).or
    ((w.days_worked.map (Int.cast : ℤ → ℚ)).or
      (if w.monthlyStats.isEmpty then none
       else some ((w.monthlyStats.map MonthlyStat.days_worked).sum)))).getD 0

/-- The `brut` value of one worker in `_generate_rcar_docx`:
`round2` of `total_amount`, else `amount`, else the `monthlyStats` amount
sum (presence chain). -/
def rcarBrut (w : Worker) : ℚ :=
  round2 ((w.total_amount.or
    (w.amount.or
      (if w.monthlyStats.isEmpty then none
       else some ((w.monthlyStats.map MonthlyStat.amount).sum)))).getD 0)

/-- One table row of the RCAR statement (financial fields). -/
structure RcarRow where
  days : ℚ
  brut : ℚ
  prelev : ℚ
  versement : ℚ
deriving DecidableEq, Repr

/-- The per-worker row built by `_generate_rcar_docx`, or `none` when the
worker is skipped (`if days <= 0 and brut <= 0: continue`); the deduction is
`round2(brut * prelevement_rate)` whenever `brut > 0`, with no age
condition. -/
def rcar_row (rate : ℚ) (w : Worker) : Option RcarRow :=
  let days := rcarDays w
  let brut := rcarBrut w
  if days ≤ 0 ∧ brut ≤ 0 then none
  else
    let prelev := if brut > 0 then round2 (brut * rate) else 0
    some { days := days, brut := brut, prelev := prelev, versement := prelev }

/-- The table rows of `_generate_rcar_docx` for a worker list. -/
def rcar_rows (rate : ℚ) (rows : List Worker) : List RcarRow :=
  rows.filterMap (rcar_row rate)

/-- `generate_rcar_salariale_docx` passes `prelevement_rate=0.06`. -/
def RCAR_SALARIALE_RATE : ℚ := 6 / 100

/-- `generate_rcar_patronale_docx` passes `prelevement_rate=0.12`. -/
def RCAR_PATRONALE_RATE : ℚ := 12 / 100

/-- The input payload fields read by the financial cores of the
document generators (document-type tag, layout options and signatory
strings are not part of the computation). -/
structure Payload where
  year : ℤ := 0
  month : ℤ := 0
  rows : List Worker := []
  rcarAgeLimit : Option ℤ := none
  decisionNumber : String := ""
  decisionDate : String := ""
deriving Repr

/-- `age_limit = int(options.get("rcarAgeLimit") or 60)` (truthy chain). -/
def payload_age_limit (p : Payload) : ℤ := truthyI p.rcarAgeLimit 60

/-- The month-end reference date every monthly renderer passes to
`build_workers_financial_rows`: `_, end_date = month_start_end(year, month)`. -/
def payload_month_end (p : Payload) : PDate := (month_start_end p.year p.month).2

/-- The financial core of `generate_certificat_paiement_docx`: year/month
validation, totals via `build_workers_financial_rows` over the month-end
date, then the decision-reference validation; no positivity requirement on
the totals. -/
def generate_certificat_core (p : Payload) : Except String Totals :=
  if p.year ≤ 0 ∨ p.month ≤ 0 ∨ p.month > 12 then
    .error "Missing required fields for certificat-paiement: year, month"
  else
    let totals := (build_workers_financial_rows p.rows (payload_month_end p) (payload_age_limit p)).2
    if p.decisionNumber = "" ∨ p.decisionDate = "" then
      .error "Missing CERTIFICAT DE PAIEMENT decision reference in configuration (decision number/date)."
    else .ok totals

/-- The financial core of `generate_recu_docx` (document type
`recu-combined`): year/month validation then totals; no positivity
requirement. -/
def generate_recu_core (p : Payload) : Except String Totals :=
  if p.year ≤ 0 ∨ p.month ≤ 0 ∨ p.month > 12 then
    .error "Missing required fields for recu: year, month"
  else .ok (build_workers_financial_rows p.rows (payload_month_end p) (payload_age_limit p)).2

/-- The financial core of `generate_demande_autorisation_docx`. -/
def generate_demande_core (p : Payload) : Except String Totals :=
  if p.year ≤ 0 ∨ p.month ≤ 0 ∨ p.month > 12 then
    .error "Missing required fields for demande-autorisation: year, month"
  else .ok (build_workers_financial_rows p.rows (payload_month_end p) (payload_age_limit p)).2

/-- The financial core of `generate_ordre_paiement_docx`. -/
def generate_ordre_core (p : Payload) : Except String Totals :=
  if p.year ≤ 0 ∨ p.month ≤ 0 ∨ p.month > 12 then
    .error "Missing required fields for ordre-paiement: year, month"
  else .ok (build_workers_financial_rows p.rows (payload_month_end p) (payload_age_limit p)).2

/-- The financial core of `generate_mandat_paiement_docx`. -/
def generate_mandat_core (p : Payload) : Except String Totals :=
  if p.year ≤ 0 ∨ p.month ≤ 0 ∨ p.month > 12 then
    .error "Missing required fields for mandat-paiement: year, month"
  else .ok (build_workers_financial_rows p.rows (payload_month_end p) (payload_age_limit p)).2

/-- The financial core of `generate_bordereau_docx`: year/month validation,
then the combined-range net over days `[1, last day of month]` via
`calculate_range_net_total`; a non-positive combined net is refused with
the data error, before any document content is built. -/
def generate_bordereau_core (p : Payload) : Except String ℚ :=
  if p.year ≤ 0 ∨ p.month ≤ 0 ∨ p.month > 12 then
    .error "Missing required fields for bordereau: year, month"
  else
    let lastDay := daysInMonth p.year p.month
    let combinedNet :=
      calculate_range_net_total p.rows p.year p.month 1 lastDay (payload_age_limit p)
    if combinedNet ≤ 0 then .error "Aucune donnée de paie pour cette période"
    else .ok combinedNet

/-- The net total printed by the monthly documents
(certificat/ordre/mandat/recu/demande): `total_net = round2(totals["net"])`
of `build_workers_financial_rows` over the month-end date. -/
def monthly_total_net (rows : List Worker) (year month ageLimit : ℤ) : ℚ :=
  round2 (build_workers_financial_rows rows (month_start_end year month).2 ageLimit).2.net

/-- The combined net total the bordereau document is built from:
`calculate_range_net_total` over the full month day range. -/
def bordereau_combined_net (rows : List Worker) (year month ageLimit : ℤ) : ℚ :=
  calculate_range_net_total rows year month 1 (daysInMonth year month) ageLimit

/-- The `units` list of `number_to_words_fr` in `generate_document.py`
(indices 0–19). -/
def docUnits : ℕ → String
  | 0 => "Zero" | 1 => "Un" | 2 => "Deux" | 3 => "Trois" | 4 => "Quatre"
  | 5 => "Cinq" | 6 => "Six" | 7 => "Sept" | 8 => "Huit" | 9 => "Neuf"
  | 10 => "Dix" | 11 => "Onze" | 12 => "Douze" | 13 => "Treize" | 14 => "Quatorze"
  | 15 => "Quinze" | 16 => "Seize" | 17 => "Dix Sept" | 18 => "Dix Huit" | 19 => "Dix Neuf"
  | _ => ""

/-- The `tens` list of `number_to_words_fr` in `generate_document.py`
(indices 2–6). -/
def docTens : ℕ → String
  | 2 => "Vingt" | 3 => "Trente" | 4 => "Quarante" | 5 => "Cinquante" | 6 => "Soixante"
  | _ => ""

/-- `two_digits` of `number_to_words_fr` in `generate_document.py`. -/
def docTwoDigits (n : ℕ) : String :=
  if n < 20 then docUnits n
  else if n < 70 then
    if n % 10 = 0 then docTens (n / 10) else docTens (n / 10) ++ " " ++ docUnits (n % 10)
  else if _h : n < 80 then "Soixante " ++ docTwoDigits (n - 60)
  else if n = 80 then "Quatre Vingt"
  else "Quatre Vingt " ++ docTwoDigits (n - 80)
termination_by n
decreasing_by all_goals omega

/-- `three_digits` of `number_to_words_fr` in `generate_document.py`. -/
def docThreeDigits (n : ℕ) : String :=
  let hundredPart :=
    if n / 100 = 0 then ""
    else if n / 100 = 1 then "Cent"
    else docUnits (n / 100) ++ " Cent"
  if n % 100 = 0 then hundredPart
  else if hundredPart = "" then docTwoDigits (n % 100)
  else hundredPart ++ " " ++ docTwoDigits (n % 100)

/-- `to_words` of `number_to_words_fr` in `generate_document.py`:
million / thousand / rest segments, space-joined, empty segments omitted. -/
def docToWords (n : ℕ) : String :=
  if n = 0 then "Zero"
  else
    let millions := n / 1000000
    let thousands := (n % 1000000) / 1000
    let rest := n % 1000
    let parts :=
      (if millions > 0 then
        [docThreeDigits millions ++ " Million" ++ (if millions > 1 then "s" else "")]
       else []) ++
      (if thousands > 0 then
        [if thousands = 1 then "Mille" else docThreeDigits thousands ++ " Mille"]
       else []) ++
      (if rest > 0 then [docThreeDigits rest] else [])
    String.intercalate " " parts

/-- `number_to_words_fr(num)` from `generate_document.py`:
`int(math.floor(num))` then `to_words`.  The renderers only pass
non-negative totals; negative inputs are outside the modelled domain. -/
def number_to_words_fr (q : ℚ) : String := docToWords (⌊q⌋.toNat)

/-- The `units` list of `number_to_words_fr` in `generate_role.py`
(index 0 is the empty string). -/
def roleUnits : ℕ → String
  | 1 => "Un" | 2 => "Deux" | 3 => "Trois" | 4 => "Quatre" | 5 => "Cinq"
  | 6 => "Six" | 7 => "Sept" | 8 => "Huit" | 9 => "Neuf"
  | _ => ""

/-- The `teens` list of `number_to_words_fr` in `generate_role.py`
(index `n - 10`). -/
def roleTeens : ℕ → String
  | 0 => "Dix" | 1 => "Onze" | 2 => "Douze" | 3 => "Treize" | 4 => "Quatorze"
  | 5 => "Quinze" | 6 => "Seize" | 7 => "Dix Sept" | 8 => "Dix Huit" | 9 => "Dix Neuf"
  | _ => ""

/-- The `tens` list of `number_to_words_fr` in `generate_role.py`. -/
def roleTens : ℕ → String
  | 2 => "Vingt" | 3 => "Trente" | 4 => "Quarante" | 5 => "Cinquante" | 6 => "Soixante"
  | 7 => "Soixante Dix" | 8 => "Quatre Vingt" | 9 => "Quatre Vingt Dix"
  | _ => ""

/-- `convert_below_hundred` of `number_to_words_fr` in `generate_role.py`:
includes the `Et` connector for a unit digit of 1 under tens 2–6. -/
def roleBelowHundred (n : ℕ) : String :=
  if n < 10 then roleUnits n
  else if n < 20 then roleTeens (n - 10)
  else
    let tensDigit := n / 10
    let unitDigit := n % 10
    if unitDigit = 0 then roleTens tensDigit
    else if unitDigit = 1 ∧ (2 ≤ tensDigit ∧ tensDigit ≤ 6) then
      roleTens tensDigit ++ " Et " ++ roleUnits unitDigit
    else roleTens tensDigit ++ " " ++ roleUnits unitDigit

/-- `convert_below_thousand` of `number_to_words_fr` in `generate_role.py`. -/
def roleBelowThousand (n : ℕ) : String :=
  (if n / 100 > 0 then
    roleUnits (n / 100) ++ " Cent" ++ (if n % 100 > 0 then " " else "")
   else "") ++
  (if n % 100 > 0 then roleBelowHundred (n % 100) else "")

/-- `convert` of `number_to_words_fr` in `generate_role.py`. -/
def roleConvert (n : ℕ) : String :=
  if n < 1000 then roleBelowThousand n
  else if _h : n < 1000000 then
    (if n / 1000 = 1 then "Mille" else roleBelowThousand (n / 1000) ++ " Mille") ++
    (if n % 1000 > 0 then " " ++ roleBelowThousand (n % 1000) else "")
  else
    (if n / 1000000 = 1 then "Un Million" else roleBelowThousand (n / 1000000) ++ " Millions") ++
    (if n % 1000000 > 0 then " " ++ roleConvert (n % 1000000) else "")
termination_by n
decreasing_by all_goals omega

/-- `number_to_words_fr(num)` from `generate_role.py`:
`int(math.floor(num))`, `"Zero"` for 0, else `convert`. -/
def role_number_to_words_fr (q : ℚ) : String :=
  if ⌊q⌋.toNat = 0 then "Zero" else roleConvert (⌊q⌋.toNat)

/-- `str(cents).rjust(2, "0")` / `f"{cents:02d}"`: pad a decimal string to
at least two characters. -/
def rjust2 (s : String) : String :=
  if s.length ≥ 2 then s else "0" ++ s

/-- `amount_to_words_dhs_cents(amount)` from `generate_document.py`:
`cents = int(round((value - floor(value)) * 100))`, padded with `rjust`,
with no carry of 100 cents into the integer part. -/
def amount_to_words_dhs_cents (q : ℚ) : String :=
  let wholePart : ℤ := ⌊q⌋
  let cents : ℤ := rhe ((q - wholePart) * 100)
  number_to_words_fr q ++ " dhs " ++ rjust2 (toString cents) ++ " Cts"

/-- ASCII upper-casing of a character, as Python's `str.upper()` acts on
the ASCII strings produced by the word converters. -/
def asciiUpperChar (c : Char) : Char :=
  if 'a' ≤ c ∧ c ≤ 'z' then Char.ofNat (c.toNat - 32) else c

/-- Python's `str.upper()` restricted to ASCII strings (the only strings
the word converters produce). -/
def asciiUpper (s : String) : String := ⟨s.data.map asciiUpperChar⟩

/-- The carried (integer part, cents) pair computed by `amount_words_upper`
inside `_generate_rcar_docx`: when the rounded cents reach 100, one is
carried into the integer part and the cents reset to 0. -/
def carryCents (value : ℚ) : ℤ × ℤ :=
  let wholePart : ℤ := ⌊value⌋
  let cents : ℤ := rhe ((value - wholePart) * 100)
  if cents = 100 then (wholePart + 1, 0) else (wholePart, cents)

/-- `amount_words_upper(amount)` from `_generate_rcar_docx` in
`generate_document.py` (applies the 100-cents carry, then uppercases). -/
def amount_words_upper (q : ℚ) : String :=
  let p := carryCents |q|
  asciiUpper (number_to_words_fr (p.1 : ℚ)) ++ " DHS " ++ rjust2 (toString p.2) ++ " CTS"

/-- A worker row of a role-of-days section in `generate_role.py` (the four
numeric fields summed by `sum_workers`; `none` models a missing or
unparseable value, which `to_float` turns into the default). -/
structure RoleWorker where
  daysWorked : Option ℚ := none
  grossSalary : Option ℚ := none
  deduction : Option ℚ := none
  netSalary : Option ℚ := none
deriving Repr

/-- The totals dict of `generate_role.py` (`totalDays`, `totalGross`,
`totalDeduction`, `totalNet`). -/
structure RoleTotals where
  totalDays : ℚ
  totalGross : ℚ
  totalDeduction : ℚ
  totalNet : ℚ
deriving DecidableEq, Repr

/-- One section of the role payload: its worker rows and the optional
payload-supplied totals. -/
structure RoleSection where
  workers : List RoleWorker := []
  totalDays : Option ℚ := none
  totalGross : Option ℚ := none
  totalDeduction : Option ℚ := none
  totalNet : Option ℚ := none
deriving Repr

/-- `sum_workers(rows)` from `draw_role_docx` in `generate_role.py`: sums
the four fields over the rows, rounding the three monetary sums (but not
the day sum) to 2 decimals. -/
def sum_workers (rows : List RoleWorker) : RoleTotals :=
  { totalDays := (rows.map (fun r => r.daysWorked.getD 0)).sum
    totalGross := round2 ((rows.map (fun r => r.grossSalary.getD 0)).sum)
    totalDeduction := round2 ((rows.map (fun r => r.deduction.getD 0)).sum)
    totalNet := round2 ((rows.map (fun r => r.netSalary.getD 0)).sum) }

/-- `normalize_totals(raw, fallback)` from `draw_role_docx` in
`generate_role.py`: each payload-supplied total wins over the fallback;
the monetary fields are rounded to 2 decimals, the day field is not. -/
def normalize_totals (raw : RoleSection) (fallback : RoleTotals) : RoleTotals :=
  { totalDays := raw.totalDays.getD fallback.totalDays
    totalGross := round2 (raw.totalGross.getD fallback.totalGross)
    totalDeduction := round2 (raw.totalDeduction.getD fallback.totalDeduction)
    totalNet := round2 (raw.totalNet.getD fallback.totalNet) }

/-- `section_totals = normalize_totals(sec, sum_workers(prepared_rows))`
(`draw_role_docx`, line 1262): the totals printed in the section's TOTAL
row. -/
def section_totals (sec : RoleSection) : RoleTotals :=
  normalize_totals sec (sum_workers sec.workers)

/-- `total_net = round2(section_totals.get("totalNet"))` (`draw_role_docx`,
line 1298): the amount the section's amount-in-words line is built from. -/
def role_total_net (sec : RoleSection) : ℚ :=
  round2 (section_totals sec).totalNet

/-- The amount-in-words line of a role section (`draw_role_docx`, lines
1299–1301). -/
def role_totals_words (sec : RoleSection) : String :=
  let tn := role_total_net sec
  let cents : ℤ := rhe ((tn - ⌊tn⌋) * 100)
  asciiUpper (role_number_to_words_fr tn) ++ " DHS " ++ rjust2 (toString cents) ++ " CTS."

theorem rhe_intCast (m : ℤ) : rhe (m : ℚ) = m := by
  simp [rhe, Int.floor_intCast]

theorem round2_eq_self_of_twoDec {q : ℚ} (h : TwoDec q) : round2 q = q := by
  obtain ⟨m, rfl⟩ := h
  have h100 : (100 : ℚ) * ((m : ℚ) / 100) = (m : ℚ) := by ring
  rw [round2, h100, rhe_intCast]

theorem twoDec_round2 (q : ℚ) : TwoDec (round2 q) := ⟨rhe (100 * q), rfl⟩

theorem twoDec_zero : TwoDec 0 := ⟨0, by norm_num⟩

theorem twoDec_add {a b : ℚ} (ha : TwoDec a) (hb : TwoDec b) : TwoDec (a + b) := by
  obtain ⟨m, rfl⟩ := ha
  obtain ⟨n, rfl⟩ := hb
  exact ⟨m + n, by push_cast; ring⟩

theorem twoDec_sub {a b : ℚ} (ha : TwoDec a) (hb : TwoDec b) : TwoDec (a - b) := by
  obtain ⟨m, rfl⟩ := ha
  obtain ⟨n, rfl⟩ := hb
  exact ⟨m - n, by push_cast; ring⟩

theorem twoDec_intCast (m : ℤ) : TwoDec (m : ℚ) := ⟨m * 100, by push_cast; ring⟩

theorem rhe_bounds (q : ℚ) : ⌊q⌋ ≤ rhe q ∧ rhe q ≤ ⌊q⌋ + 1 := by
  unfold rhe
  split
  · exact ⟨le_refl _, by omega⟩
  · split
    · exact ⟨by omega, le_refl _⟩
    · split
      · exact ⟨le_refl _, by omega⟩
      · exact ⟨by omega, le_refl _⟩

/-- C4: `calculate_age_at` is the calendar-accurate age (year difference,
minus one when the reference month/day precedes the birth month/day) and is
`none` exactly on absent/unparseable birth dates; `calculate_igr_deduction`
is `round2(gross × rate)` when the age is unknown or ≤ the limit, and `0`
otherwise. -/
theorem age_and_deduction_spec (ref : PDate) (gross : ℚ) (ageLimit : ℤ) :
    calculate_age_at Birth.absent ref = none ∧
    calculate_age_at Birth.unparseable ref = none ∧
    (∀ d : PDate, calculate_age_at (Birth.valid d) ref =
      some (ref.year - d.year -
        (if pairLt (ref.month, ref.day) (d.month, d.day) then 1 else 0))) ∧
    (∀ b : Birth, calculate_igr_deduction b ref gross ageLimit =
      match calculate_age_at b ref with
      | none => round2 (gross * RCAR_RATE)
      | some age => if age ≤ ageLimit then round2 (gross * RCAR_RATE) else 0) := by
  refine ⟨rfl, rfl, ?_, ?_⟩
  · intro d
    simp only [calculate_age_at, parse_date]
    split <;> simp
  · intro b
    rfl

theorem round2_zero : round2 0 = 0 := round2_eq_self_of_twoDec twoDec_zero

theorem round2_idem (q : ℚ) : round2 (round2 q) = round2 q :=
  round2_eq_self_of_twoDec (twoDec_round2 q)

theorem twoDec_listSum (l : List ℚ) (h : ∀ x ∈ l, TwoDec x) : TwoDec l.sum := by
  induction l with
  | nil => simpa using twoDec_zero
  | cons a t ih =>
      rw [List.sum_cons]
      exact twoDec_add (h a (by simp)) (ih fun x hx => h x (by simp [hx]))

theorem twoDec_calculate_igr_deduction (birth : Birth) (ref : PDate) (gross : ℚ)
    (ageLimit : ℤ) : TwoDec (calculate_igr_deduction birth ref gross ageLimit) := by
  unfold calculate_igr_deduction
  rcases calculate_age_at birth ref with _ | age
  · exact twoDec_round2 _
  · by_cases h : age ≤ ageLimit
    · simpa [h] using twoDec_round2 (gross * RCAR_RATE)
    · simpa [h] using twoDec_zero

theorem twoDec_workerDeduction (ref : PDate) (ageLimit : ℤ) (w : Worker) :
    TwoDec (workerDeduction ref ageLimit w) :=
  twoDec_calculate_igr_deduction _ _ _ _

theorem twoDec_workerNet (ref : PDate) (ageLimit : ℤ) (w : Worker) :
    TwoDec (workerNet ref ageLimit w) := twoDec_round2 _

theorem sum_map_sub {α : Type} (l : List α) (f g : α → ℚ) :
    (l.map (fun x => f x - g x)).sum = (l.map f).sum - (l.map g).sum := by
  induction l with
  | nil => simp
  | cons a t ih => simp [ih]; ring

/-- C6 (counterexample): `build_workers_financial_rows` accumulates the raw
(unrounded) gross, so for two workers with gross 10.004 the totals give
net 18.80 but gross − deduction = 20.01 − 1.20 = 18.81: the claimed identity
`totals.net = totals.gross − totals.deduction` fails, and the gross is not
rounded to 2 decimals before accumulation as the claim describes. -/
theorem totals_additivity_counterexample :
    (build_workers_financial_rows
        [{days_worked := some 1, amount := some (10004/1000)},
         {days_worked := some 1, amount := some (10004/1000)}] ⟨2024, 3, 31⟩ 60).2.net
      ≠ (build_workers_financial_rows
        [{days_worked := some 1, amount := some (10004/1000)},
         {days_worked := some 1, amount := some (10004/1000)}] ⟨2024, 3, 31⟩ 60).2.gross
        - (build_workers_financial_rows
        [{days_worked := some 1, amount := some (10004/1000)},
         {days_worked := some 1, amount := some (10004/1000)}] ⟨2024, 3, 31⟩ 60).2.deduction := by
  norm_num [build_workers_financial_rows, monthlyKeep, effDays, effGross, truthyI, truthyQ,
    workerNet, workerDeduction, calculate_igr_deduction, calculate_age_at, parse_date,
    round2, rhe, RCAR_RATE]

/-- C6 (amended): the sum of the emitted rows' nets always equals the net
total; and when every worker's effective gross is an exact 2-decimal amount,
`totals.net = totals.gross − totals.deduction` also holds exactly.  (The
unconditional second identity of the claim fails because the loop
accumulates the raw, unrounded gross — see the counterexample.) -/
theorem totals_additivity_amended (rows : List Worker) (ref : PDate) (limit : ℤ) :
    (((build_workers_financial_rows rows ref limit).1.map RowOut.net).sum
        = (build_workers_financial_rows rows ref limit).2.net) ∧
    ((∀ w ∈ rows, TwoDec (effGross w)) →
      (build_workers_financial_rows rows ref limit).2.net
        = (build_workers_financial_rows rows ref limit).2.gross
          - (build_workers_financial_rows rows ref limit).2.deduction) := by
  constructor
  · unfold build_workers_financial_rows
    simp only [List.map_map]
    have h1 : (rows.filter monthlyKeep).map (RowOut.net ∘ rowOf ref limit)
        = (rows.filter monthlyKeep).map (workerNet ref limit) := by
      apply List.map_congr_left
      intro w _
      simp [rowOf, Function.comp, workerNet, round2_idem]
    rw [h1]
    exact (round2_eq_self_of_twoDec (twoDec_listSum _ (by
      intro x hx
      obtain ⟨w, _, rfl⟩ := List.mem_map.1 hx
      exact twoDec_workerNet ref limit w))).symm
  · intro h
    unfold build_workers_financial_rows
    simp only
    have hg : ∀ w ∈ rows.filter monthlyKeep, TwoDec (effGross w) := fun w hw =>
      h w (List.mem_filter.1 hw).1
    have hnet : (rows.filter monthlyKeep).map (workerNet ref limit)
        = (rows.filter monthlyKeep).map (fun w => effGross w - workerDeduction ref limit w) := by
      apply List.map_congr_left
      intro w hw
      exact round2_eq_self_of_twoDec (twoDec_sub (hg w hw) (twoDec_workerDeduction ref limit w))
    have hG : TwoDec (((rows.filter monthlyKeep).map effGross).sum) := by
      apply twoDec_listSum
      intro x hx
      obtain ⟨w, hw, rfl⟩ := List.mem_map.1 hx
      exact hg w hw
    have hD : TwoDec (((rows.filter monthlyKeep).map (workerDeduction ref limit)).sum) := by
      apply twoDec_listSum
      intro x hx
      obtain ⟨w, _, rfl⟩ := List.mem_map.1 hx
      exact twoDec_workerDeduction ref limit w
    rw [hnet, sum_map_sub, round2_eq_self_of_twoDec (twoDec_sub hG hD),
      round2_eq_self_of_twoDec hG, round2_eq_self_of_twoDec hD]

/-- Witness for the amended C6 theorem at a concrete one-worker payload
with a 2-decimal gross of 100.50. -/
theorem totals_additivity_amended_witness :
    (∀ w ∈ [({days_worked := some 1, amount := some (201/2)} : Worker)], TwoDec (effGross w)) ∧
    (((build_workers_financial_rows [{days_worked := some 1, amount := some (201/2)}]
        ⟨2024, 3, 31⟩ 60).1.map RowOut.net).sum
      = (build_workers_financial_rows [{days_worked := some 1, amount := some (201/2)}]
        ⟨2024, 3, 31⟩ 60).2.net) ∧
    ((build_workers_financial_rows [{days_worked := some 1, amount := some (201/2)}]
        ⟨2024, 3, 31⟩ 60).2.net
      = (build_workers_financial_rows [{days_worked := some 1, amount := some (201/2)}]
        ⟨2024, 3, 31⟩ 60).2.gross
        - (build_workers_financial_rows [{days_worked := some 1, amount := some (201/2)}]
        ⟨2024, 3, 31⟩ 60).2.deduction) :=
  have hyp : ∀ w ∈ [({days_worked := some 1, amount := some (201/2)} : Worker)],
      TwoDec (effGross w) := by
    intro w hw
    simp only [List.mem_singleton] at hw
    subst hw
    exact ⟨10050, by norm_num [effGross, truthyQ]⟩
  ⟨hyp, (totals_additivity_amended _ ⟨2024, 3, 31⟩ 60).1,
    (totals_additivity_amended _ ⟨2024, 3, 31⟩ 60).2 hyp⟩

/-- C7: aggregation totals are invariant under permutations of the worker
list — the accumulated sums of `build_workers_financial_rows` are
order-independent. -/
theorem totals_perm_invariant (rows1 rows2 : List Worker) (ref : PDate) (limit : ℤ)
    (h : rows1.Perm rows2) :
    (build_workers_financial_rows rows1 ref limit).2
      = (build_workers_financial_rows rows2 ref limit).2 := by
  have hk : (rows1.filter monthlyKeep).Perm (rows2.filter monthlyKeep) := h.filter _
  unfold build_workers_financial_rows
  simp only [Totals.mk.injEq]
  refine ⟨?_, ?_, ?_, ?_⟩
  · exact congrArg round2 (((hk.map effDays).map _).sum_eq)
  · exact congrArg round2 ((hk.map effGross).sum_eq)
  · exact congrArg round2 ((hk.map (workerDeduction ref limit)).sum_eq)
  · exact congrArg round2 ((hk.map (workerNet ref limit)).sum_eq)

/-- Witness for C7 at a concrete two-worker payload and its swap. -/
theorem totals_perm_invariant_witness :
    ([({days_worked := some 2, amount := some 300} : Worker),
      {days_worked := some 5, amount := some 1000}].Perm
      [({days_worked := some 5, amount := some 1000} : Worker),
       {days_worked := some 2, amount := some 300}]) ∧
    (build_workers_financial_rows
        [{days_worked := some 2, amount := some 300},
         {days_worked := some 5, amount := some 1000}] ⟨2024, 3, 31⟩ 60).2
      = (build_workers_financial_rows
        [{days_worked := some 5, amount := some 1000},
         {days_worked := some 2, amount := some 300}] ⟨2024, 3, 31⟩ 60).2 :=
  have hp : ([({days_worked := some 2, amount := some 300} : Worker),
      {days_worked := some 5, amount := some 1000}].Perm
      [({days_worked := some 5, amount := some 1000} : Worker),
       {days_worked := some 2, amount := some 300}]) :=
    List.Perm.swap _ _ []
  ⟨hp, totals_perm_invariant _ _ ⟨2024, 3, 31⟩ 60 hp⟩

/-- C5 (counterexample): a worker with 5 days and zero gross has
non-positive effective gross, yet the RCAR statement emits a row for them
(its skip test is `days <= 0 and brut <= 0`, not `or`), so the output
contains a row whose gross is not strictly positive. -/
theorem rcar_zero_gross_row_counterexample :
    effGross {days_worked := some 5, amount := some 0} ≤ 0 ∧
    rcar_rows RCAR_SALARIALE_RATE [{days_worked := some 5, amount := some 0}]
      = [{days := 5, brut := 0, prelev := 0, versement := 0}] := by
  constructor
  · norm_num [effGross, truthyQ]
  · norm_num [rcar_rows, rcar_row, rcarDays, rcarBrut, Option.or, round2, rhe, List.filterMap]

/-- C5 (amended): `build_workers_financial_rows` excludes a worker (from
both rows and totals) whenever its effective days or effective gross is
non-positive, and every emitted row comes from a worker with strictly
positive days and gross; the RCAR statement, by contrast, excludes a worker
only when its days AND its brut are both non-positive. -/
theorem aggregation_exclusion_rules (rows : List Worker) (ref : PDate) (limit : ℤ)
    (w : Worker) (rate : ℚ) :
    (¬(effDays w > 0 ∧ effGross w > 0) →
      build_workers_financial_rows (w :: rows) ref limit
        = build_workers_financial_rows rows ref limit) ∧
    (∀ r ∈ (build_workers_financial_rows rows ref limit).1,
      ∃ w0, w0 ∈ rows ∧ effDays w0 > 0 ∧ effGross w0 > 0 ∧ r = rowOf ref limit w0) ∧
    (rcar_row rate w = none ↔ rcarDays w ≤ 0 ∧ rcarBrut w ≤ 0) := by
  refine ⟨?_, ?_, ?_⟩
  · intro h
    have hw : ¬ (monthlyKeep w = true) := by simpa [monthlyKeep] using h
    unfold build_workers_financial_rows
    rw [List.filter_cons_of_neg hw]
  · intro r hr
    unfold build_workers_financial_rows at hr
    simp only at hr
    obtain ⟨w0, hw0, rfl⟩ := List.mem_map.1 hr
    obtain ⟨hmem, hkeep⟩ := List.mem_filter.1 hw0
    obtain ⟨hd, hg⟩ : effDays w0 > 0 ∧ effGross w0 > 0 := by simpa [monthlyKeep] using hkeep
    exact ⟨w0, hmem, hd, hg, rfl⟩
  · unfold rcar_row
    by_cases h : rcarDays w ≤ 0 ∧ rcarBrut w ≤ 0
    · simp [h]
    · simp [h]

theorem docTwoDigits_21 : docTwoDigits 21 = "Vingt Un" := by
  rw [docTwoDigits.eq_def]; norm_num [docUnits, docTens]; rfl

theorem docTwoDigits_80 : docTwoDigits 80 = "Quatre Vingt" := by
  rw [docTwoDigits.eq_def]; norm_num

theorem docTwoDigits_91 : docTwoDigits 91 = "Quatre Vingt Onze" := by
  rw [docTwoDigits.eq_def]; norm_num; rw [docTwoDigits.eq_def]; norm_num [docUnits]; rfl

theorem docTwoDigits_1 : docTwoDigits 1 = "Un" := by
  rw [docTwoDigits.eq_def]; norm_num [docUnits]

theorem docTwoDigits_2 : docTwoDigits 2 = "Deux" := by
  rw [docTwoDigits.eq_def]; norm_num [docUnits]

theorem docTwoDigits_13 : docTwoDigits 13 = "Treize" := by
  rw [docTwoDigits.eq_def]; norm_num [docUnits]

theorem docToWords_0 : docToWords 0 = "Zero" := by norm_num [docToWords]

theorem docToWords_21 : docToWords 21 = "Vingt Un" := by
  norm_num [docToWords, docThreeDigits, docTwoDigits_21]; rfl

theorem docToWords_80 : docToWords 80 = "Quatre Vingt" := by
  norm_num [docToWords, docThreeDigits, docTwoDigits_80]; rfl

theorem docToWords_91 : docToWords 91 = "Quatre Vingt Onze" := by
  norm_num [docToWords, docThreeDigits, docTwoDigits_91]; rfl

theorem docToWords_1000000 : docToWords 1000000 = "Un Million" := by
  norm_num [docToWords, docThreeDigits, docTwoDigits_1]; rfl

theorem docToWords_2000000 : docToWords 2000000 = "Deux Millions" := by
  norm_num [docToWords, docThreeDigits, docTwoDigits_2]; rfl

theorem docToWords_1 : docToWords 1 = "Un" := by
  norm_num [docToWords, docThreeDigits, docTwoDigits_1]; rfl

theorem docToWords_13 : docToWords 13 = "Treize" := by
  norm_num [docToWords, docThreeDigits, docTwoDigits_13]; rfl

theorem roleConvert_21 : roleConvert 21 = "Vingt Et Un" := by
  rw [roleConvert.eq_def]; norm_num [roleBelowThousand, roleBelowHundred, roleUnits, roleTens]; rfl

theorem roleConvert_80 : roleConvert 80 = "Quatre Vingt" := by
  rw [roleConvert.eq_def]; norm_num [roleBelowThousand, roleBelowHundred, roleUnits, roleTens]

theorem roleConvert_91 : roleConvert 91 = "Quatre Vingt Dix Un" := by
  rw [roleConvert.eq_def]; norm_num [roleBelowThousand, roleBelowHundred, roleUnits, roleTens]; rfl

theorem roleConvert_1000000 : roleConvert 1000000 = "Un Million" := by
  rw [roleConvert.eq_def]; norm_num [roleBelowThousand, roleBelowHundred, roleUnits, roleTens]

theorem roleConvert_2000000 : roleConvert 2000000 = "Deux Millions" := by
  rw [roleConvert.eq_def]; norm_num [roleBelowThousand, roleBelowHundred, roleUnits, roleTens]; rfl

theorem number_to_words_fr_21 : number_to_words_fr (21 : ℚ) = "Vingt Un" := by
  have h0 : (⌊(21:ℚ)⌋).toNat = 21 := by norm_num; try decide
  simp only [number_to_words_fr, h0, docToWords_21]

theorem role_number_to_words_fr_21 : role_number_to_words_fr (21 : ℚ) = "Vingt Et Un" := by
  have h0 : (⌊(21:ℚ)⌋).toNat = 21 := by norm_num; try decide
  simp only [role_number_to_words_fr, h0, roleConvert_21]
  norm_num

/-- Witness for the amended C5 theorem: a worker with 3 days and no amount
fails the keep test and is dropped from the monthly aggregation entirely. -/
theorem aggregation_exclusion_rules_witness :
    ¬(effDays ({days_worked := some 3} : Worker) > 0
        ∧ effGross ({days_worked := some 3} : Worker) > 0) ∧
    build_workers_financial_rows [{days_worked := some 3}] ⟨2024, 3, 31⟩ 60
      = build_workers_financial_rows [] ⟨2024, 3, 31⟩ 60 :=
  have hyp : ¬(effDays ({days_worked := some 3} : Worker) > 0
      ∧ effGross ({days_worked := some 3} : Worker) > 0) := by
    norm_num [effDays, effGross, truthyI, truthyQ]
  ⟨hyp, (aggregation_exclusion_rules [] ⟨2024, 3, 31⟩ 60 _ RCAR_SALARIALE_RATE).1 hyp⟩

/-- C2 (counterexample): a worker born 01/01/1950 is 74 at 31/12/2024,
strictly above the default threshold 60, yet the RCAR statement computes a
non-zero deduction (240 = 6% of 4000) for them: `_generate_rcar_docx`
applies the flat rate with no age condition. -/
theorem rcar_deduction_above_age_limit_counterexample :
    calculate_age_at (Birth.valid ⟨1950, 1, 1⟩) ⟨2024, 12, 31⟩ = some 74 ∧
    (60 : ℤ) < 74 ∧
    rcar_row RCAR_SALARIALE_RATE
        {days_worked := some 20, amount := some 4000,
         date_naissance := Birth.valid ⟨1950, 1, 1⟩}
      = some {days := 20, brut := 4000, prelev := 240, versement := 240} ∧
    (240 : ℚ) ≠ 0 := by
  refine ⟨?_, by norm_num, ?_, by norm_num⟩
  · norm_num [calculate_age_at, parse_date, pairLt]
  · norm_num [rcar_row, rcarDays, rcarBrut, RCAR_SALARIALE_RATE, round2, rhe, Option.or]

/-- C2 (amended): the deduction of `calculate_igr_deduction` — used by the
certificat/ordre/mandat/recu/demande and bordereau computations — is zero
for every worker whose age at the reference date is strictly above the
threshold; the RCAR statements, by contrast, ignore the birth date
entirely and deduct the flat rate from every kept worker. -/
theorem deduction_age_exemption_amended (birth : Birth) (ref : PDate) (gross : ℚ)
    (limit a : ℤ) (rate : ℚ) (w : Worker) :
    (calculate_age_at birth ref = some a → limit < a →
      calculate_igr_deduction birth ref gross limit = 0) ∧
    (rcar_row rate { w with date_naissance := birth } = rcar_row rate w) := by
  constructor
  · intro h hlt
    simp [calculate_igr_deduction, h, not_le.2 hlt]
  · rfl

/-- Witness for the amended C2 theorem: the 74-year-old worker of the
counterexample is exempted by `calculate_igr_deduction`. -/
theorem deduction_age_exemption_amended_witness :
    calculate_age_at (Birth.valid ⟨1950, 1, 1⟩) ⟨2024, 12, 31⟩ = some 74 ∧
    (60 : ℤ) < 74 ∧
    calculate_igr_deduction (Birth.valid ⟨1950, 1, 1⟩) ⟨2024, 12, 31⟩ 4000 60 = 0 :=
  have h1 : calculate_age_at (Birth.valid ⟨1950, 1, 1⟩) ⟨2024, 12, 31⟩ = some 74 := by
    norm_num [calculate_age_at, parse_date, pairLt]
  have h2 : (60 : ℤ) < 74 := by norm_num
  ⟨h1, h2,
    (deduction_age_exemption_amended (Birth.valid ⟨1950, 1, 1⟩) ⟨2024, 12, 31⟩ 4000 60 74
      RCAR_SALARIALE_RATE {}).1 h1 h2⟩

/-- C1 (counterexample): from the same payload (one worker, 20 days worked,
gross 4000, no presence-day data) and the same month 03/2024, the monthly
documents (certificat, mandat, ordre, recu, demande) show a net total of
3760.00 while the bordereau's combined net — computed from presence days ×
daily rate — is 0: the renderers do not all compute identical period
totals. -/
theorem monthly_vs_bordereau_counterexample :
    monthly_total_net [{days_worked := some 20, amount := some 4000}] 2024 3 60 = 3760 ∧
    bordereau_combined_net [{days_worked := some 20, amount := some 4000}] 2024 3 60 = 0 ∧
    monthly_total_net [{days_worked := some 20, amount := some 4000}] 2024 3 60
      ≠ bordereau_combined_net [{days_worked := some 20, amount := some 4000}] 2024 3 60 := by
  have h1 : monthly_total_net [{days_worked := some 20, amount := some 4000}] 2024 3 60
      = 3760 := by
    norm_num [monthly_total_net, build_workers_financial_rows, monthlyKeep, effDays, effGross,
      truthyI, truthyQ, workerNet, workerDeduction, calculate_igr_deduction, calculate_age_at,
      parse_date, month_start_end, round2, rhe, RCAR_RATE]
  have h2 : bordereau_combined_net [{days_worked := some 20, amount := some 4000}] 2024 3 60
      = 0 := by
    norm_num [bordereau_combined_net, calculate_range_net_total, rangeContribCents,
      dailySalaryOf, truthyQ, daysInMonth]
  exact ⟨h1, h2, by rw [h1, h2]; norm_num⟩

/-- C1 (amended): the five monthly renderers (certificat, recu, demande,
ordre, mandat) all delegate to `build_workers_financial_rows` with the same
payload, the same month-end reference date and the same rate rule, so on
any valid payload they produce the same totals object and the same printed
net total; the bordereau, however, computes its combined net from
presence-days × daily-rate (`calculate_range_net_total`) and can differ
from them on the same payload (see the counterexample). -/
theorem monthly_renderers_share_totals (p : Payload)
    (hy : 0 < p.year) (hm : 0 < p.month) (hm12 : p.month ≤ 12)
    (hd1 : p.decisionNumber ≠ "") (hd2 : p.decisionDate ≠ "") :
    ∃ t : Totals,
      generate_certificat_core p = .ok t ∧
      generate_recu_core p = .ok t ∧
      generate_demande_core p = .ok t ∧
      generate_ordre_core p = .ok t ∧
      generate_mandat_core p = .ok t ∧
      round2 t.net = monthly_total_net p.rows p.year p.month (payload_age_limit p) := by
  have hcond : ¬(p.year ≤ 0 ∨ p.month ≤ 0 ∨ p.month > 12) := by omega
  refine ⟨(build_workers_financial_rows p.rows (payload_month_end p) (payload_age_limit p)).2,
    ?_, ?_, ?_, ?_, ?_, rfl⟩
  · simp [generate_certificat_core, hcond, hd1, hd2]
  · simp [generate_recu_core, hcond]
  · simp [generate_demande_core, hcond]
  · simp [generate_ordre_core, hcond]
  · simp [generate_mandat_core, hcond]

/-- Witness for the amended C1 theorem at a concrete valid payload. -/
theorem monthly_renderers_share_totals_witness :
    (0 < (2024 : ℤ) ∧ 0 < (3 : ℤ) ∧ (3 : ℤ) ≤ 12 ∧ "12" ≠ "" ∧ "01/03/2024" ≠ "") ∧
    ∃ t : Totals,
      generate_certificat_core
          {year := 2024, month := 3, rows := [{days_worked := some 20, amount := some 4000}],
           decisionNumber := "12", decisionDate := "01/03/2024"} = .ok t ∧
      generate_recu_core
          {year := 2024, month := 3, rows := [{days_worked := some 20, amount := some 4000}],
           decisionNumber := "12", decisionDate := "01/03/2024"} = .ok t ∧
      generate_demande_core
          {year := 2024, month := 3, rows := [{days_worked := some 20, amount := some 4000}],
           decisionNumber := "12", decisionDate := "01/03/2024"} = .ok t ∧
      generate_ordre_core
          {year := 2024, month := 3, rows := [{days_worked := some 20, amount := some 4000}],
           decisionNumber := "12", decisionDate := "01/03/2024"} = .ok t ∧
      generate_mandat_core
          {year := 2024, month := 3, rows := [{days_worked := some 20, amount := some 4000}],
           decisionNumber := "12", decisionDate := "01/03/2024"} = .ok t ∧
      round2 t.net = monthly_total_net [{days_worked := some 20, amount := some 4000}]
        2024 3 (payload_age_limit
          {year := 2024, month := 3, rows := [{days_worked := some 20, amount := some 4000}],
           decisionNumber := "12", decisionDate := "01/03/2024"}) :=
  ⟨⟨by norm_num, by norm_num, by norm_num, by decide, by decide⟩,
    monthly_renderers_share_totals _ (by norm_num) (by norm_num) (by norm_num)
      (by decide) (by decide)⟩

/-- C3: the cents carry is implemented only in `amount_words_upper`; the
sibling `amount_to_words_dhs_cents` does not carry, and on amount 0.999
(whose fractional part rounds to 100 cents) it emits the forbidden
"100 Cts" string, while `amount_words_upper` on the same amount — and on
the spec's 12.995 example — carries into the integer part and prints
"00" cents. -/
theorem amount_words_hundred_cents_bug :
    amount_to_words_dhs_cents (999/1000) = "Zero dhs 100 Cts" ∧
    amount_words_upper (999/1000) = "UN DHS 00 CTS" ∧
    amount_words_upper (12995/1000) = "TREIZE DHS 00 CTS" := by
  refine ⟨?_, ?_, ?_⟩
  · have h0 : (⌊(999/1000:ℚ)⌋) = 0 := by norm_num
    have h1 : number_to_words_fr (999/1000 : ℚ) = "Zero" := by
      simp only [number_to_words_fr, h0, Int.toNat_zero, docToWords_0]
    have h2 : rhe (((999/1000 : ℚ) - ((0:ℤ):ℚ)) * 100) = 100 := by norm_num [rhe]
    simp only [amount_to_words_dhs_cents, h0, h1, h2]
    rfl
  · have habs : |(999/1000 : ℚ)| = 999/1000 := by norm_num
    have h0 : (⌊(999/1000:ℚ)⌋) = 0 := by norm_num
    have h2 : rhe (((999/1000 : ℚ) - ((0:ℤ):ℚ)) * 100) = 100 := by norm_num [rhe]
    have hc : carryCents (999/1000 : ℚ) = (1, 0) := by
      simp only [carryCents, h0, h2]
      norm_num
    have h1 : number_to_words_fr ((1:ℤ) : ℚ) = "Un" := by
      have h3 : (⌊((1:ℤ):ℚ)⌋).toNat = 1 := by norm_num
      simp only [number_to_words_fr, h3, docToWords_1]
    simp only [amount_words_upper, habs, hc, h1]
    rfl
  · have habs : |(12995/1000 : ℚ)| = 12995/1000 := by norm_num
    have h0 : (⌊(12995/1000:ℚ)⌋) = 12 := by norm_num
    have h2 : rhe (((12995/1000 : ℚ) - ((12:ℤ):ℚ)) * 100) = 100 := by norm_num [rhe]
    have hc : carryCents (12995/1000 : ℚ) = (13, 0) := by
      simp only [carryCents, h0, h2]
      norm_num
    have h1 : number_to_words_fr ((13:ℤ) : ℚ) = "Treize" := by
      have h3 : (⌊((13:ℤ):ℚ)⌋).toNat = 13 := by norm_num; try decide
      simp only [number_to_words_fr, h3, docToWords_13]
    simp only [amount_words_upper, habs, hc, h1]
    rfl

/-- C8 (counterexample): at 21 the two number-to-words implementations
disagree — `generate_document.py` produces "Vingt Un" (no connector) while
`generate_role.py` produces "Vingt Et Un" — so they are not identical on
every non-negative integer. -/
theorem number_words_implementations_differ :
    number_to_words_fr (21 : ℚ) = "Vingt Un" ∧
    role_number_to_words_fr (21 : ℚ) = "Vingt Et Un" ∧
    number_to_words_fr (21 : ℚ) ≠ role_number_to_words_fr (21 : ℚ) := by
  refine ⟨number_to_words_fr_21, role_number_to_words_fr_21, ?_⟩
  rw [number_to_words_fr_21, role_number_to_words_fr_21]
  decide

/-- C8 (amended): the two implementations are distinct algorithms: they
differ at the x1 positions (21 → "Vingt Un" in `generate_document.py` vs
"Vingt Et Un" in `generate_role.py`) and at 91 ("Quatre Vingt Onze" vs
"Quatre Vingt Dix Un"); only the role variant includes the "Et" connector.
Both satisfy the spot checks 0 → "Zero", 80 → "Quatre Vingt",
1 000 000 → singular "Million" and 2 000 000 → plural "Millions"; the
teen-composed 91 check holds only for the `generate_document.py` variant. -/
theorem number_words_spot_checks_amended :
    (number_to_words_fr (0 : ℚ) = "Zero" ∧ role_number_to_words_fr (0 : ℚ) = "Zero") ∧
    (number_to_words_fr (21 : ℚ) = "Vingt Un"
      ∧ role_number_to_words_fr (21 : ℚ) = "Vingt Et Un") ∧
    (number_to_words_fr (80 : ℚ) = "Quatre Vingt"
      ∧ role_number_to_words_fr (80 : ℚ) = "Quatre Vingt") ∧
    (number_to_words_fr (91 : ℚ) = "Quatre Vingt Onze"
      ∧ role_number_to_words_fr (91 : ℚ) = "Quatre Vingt Dix Un") ∧
    (number_to_words_fr (1000000 : ℚ) = "Un Million"
      ∧ role_number_to_words_fr (1000000 : ℚ) = "Un Million") ∧
    (number_to_words_fr (2000000 : ℚ) = "Deux Millions"
      ∧ role_number_to_words_fr (2000000 : ℚ) = "Deux Millions") := by
  refine ⟨⟨?_, ?_⟩, ⟨number_to_words_fr_21, role_number_to_words_fr_21⟩,
    ⟨?_, ?_⟩, ⟨?_, ?_⟩, ⟨?_, ?_⟩, ⟨?_, ?_⟩⟩
  · norm_num [number_to_words_fr, docToWords]
  · norm_num [role_number_to_words_fr]
  · have h0 : (⌊(80:ℚ)⌋).toNat = 80 := by norm_num; try decide
    simp only [number_to_words_fr, h0, docToWords_80]
  · have h0 : (⌊(80:ℚ)⌋).toNat = 80 := by norm_num; try decide
    simp only [role_number_to_words_fr, h0, roleConvert_80]
    norm_num
  · have h0 : (⌊(91:ℚ)⌋).toNat = 91 := by norm_num; try decide
    simp only [number_to_words_fr, h0, docToWords_91]
  · have h0 : (⌊(91:ℚ)⌋).toNat = 91 := by norm_num; try decide
    simp only [role_number_to_words_fr, h0, roleConvert_91]
    norm_num
  · have h0 : (⌊(1000000:ℚ)⌋).toNat = 1000000 := by norm_num; try decide
    simp only [number_to_words_fr, h0, docToWords_1000000]
  · have h0 : (⌊(1000000:ℚ)⌋).toNat = 1000000 := by norm_num; try decide
    simp only [role_number_to_words_fr, h0, roleConvert_1000000]
    norm_num
  · have h0 : (⌊(2000000:ℚ)⌋).toNat = 2000000 := by norm_num; try decide
    simp only [number_to_words_fr, h0, docToWords_2000000]
  · have h0 : (⌊(2000000:ℚ)⌋).toNat = 2000000 := by norm_num; try decide
    simp only [role_number_to_words_fr, h0, roleConvert_2000000]
    norm_num

/-- C9: on a payload whose worker list is empty or entirely filtered out,
the bordereau core fails with the data error (its combined net over the
day range [1, last day of month] is not strictly positive) before any
document content is built, while the certificat/recu/demande/ordre/mandat
cores succeed with all-zero totals and the RCAR statements emit no rows. -/
theorem bordereau_zero_guard (p : Payload)
    (hy : 0 < p.year) (hm : 0 < p.month) (hm12 : p.month ≤ 12)
    (hd1 : p.decisionNumber ≠ "") (hd2 : p.decisionDate ≠ "")
    (hmonthly : ∀ w ∈ p.rows, ¬(effDays w > 0 ∧ effGross w > 0))
    (hrange : ∀ w ∈ p.rows,
      dailySalaryOf w ≤ 0 ∨ daysInRange w 1 (daysInMonth p.year p.month) ≤ 0)
    (hrcar : ∀ w ∈ p.rows, rcarDays w ≤ 0 ∧ rcarBrut w ≤ 0) :
    generate_bordereau_core p = .error "Aucune donnée de paie pour cette période" ∧
    generate_certificat_core p = .ok ⟨0, 0, 0, 0⟩ ∧
    generate_recu_core p = .ok ⟨0, 0, 0, 0⟩ ∧
    generate_demande_core p = .ok ⟨0, 0, 0, 0⟩ ∧
    generate_ordre_core p = .ok ⟨0, 0, 0, 0⟩ ∧
    generate_mandat_core p = .ok ⟨0, 0, 0, 0⟩ ∧
    rcar_rows RCAR_SALARIALE_RATE p.rows = [] ∧
    rcar_rows RCAR_PATRONALE_RATE p.rows = [] := by
  have hcond : ¬(p.year ≤ 0 ∨ p.month ≤ 0 ∨ p.month > 12) := by omega
  have hfilter : p.rows.filter monthlyKeep = [] := by
    rw [List.filter_eq_nil_iff]
    intro w hw
    simpa [monthlyKeep] using hmonthly w hw
  have htotals : (build_workers_financial_rows p.rows (payload_month_end p)
      (payload_age_limit p)).2 = ⟨0, 0, 0, 0⟩ := by
    simp [build_workers_financial_rows, hfilter, round2_zero]
  have hzero : calculate_range_net_total p.rows p.year p.month 1
      (daysInMonth p.year p.month) (payload_age_limit p) = 0 := by
    unfold calculate_range_net_total
    simp only
    rw [List.sum_eq_zero]
    · norm_num
    · intro x hx
      obtain ⟨w, hw, rfl⟩ := List.mem_map.1 hx
      rcases hrange w hw with h | h
      · simp [rangeContribCents, h]
      · by_cases hds : dailySalaryOf w ≤ 0
        · simp [rangeContribCents, hds]
        · simp [rangeContribCents, hds, h]
  have hrcarNil : ∀ rate : ℚ, rcar_rows rate p.rows = [] := by
    intro rate
    unfold rcar_rows
    rw [List.filterMap_eq_nil_iff]
    intro w hw
    simp [rcar_row, hrcar w hw]
  refine ⟨?_, ?_, ?_, ?_, ?_, ?_, hrcarNil _, hrcarNil _⟩
  · simp [generate_bordereau_core, hcond, hzero]
  · simp [generate_certificat_core, hcond, hd1, hd2, htotals]
  · simp [generate_recu_core, hcond, htotals]
  · simp [generate_demande_core, hcond, htotals]
  · simp [generate_ordre_core, hcond, htotals]
  · simp [generate_mandat_core, hcond, htotals]

/-- Witness for C9 at a concrete empty-worker-list payload for 03/2024. -/
theorem bordereau_zero_guard_witness :
    (∀ w ∈ ([] : List Worker), ¬(effDays w > 0 ∧ effGross w > 0)) ∧
    generate_bordereau_core
        {year := 2024, month := 3, rows := [],
         decisionNumber := "12", decisionDate := "01/03/2024"}
      = .error "Aucune donnée de paie pour cette période" ∧
    generate_certificat_core
        {year := 2024, month := 3, rows := [],
         decisionNumber := "12", decisionDate := "01/03/2024"}
      = .ok ⟨0, 0, 0, 0⟩ :=
  have hres := bordereau_zero_guard
    {year := 2024, month := 3, rows := [], decisionNumber := "12", decisionDate := "01/03/2024"}
    (by norm_num) (by norm_num) (by norm_num) (by decide) (by decide)
    (by simp) (by simp) (by simp)
  ⟨by simp, hres.1, hres.2.1⟩

/-- C10: in the role-of-days document, the printed TOTAL row and the
value feeding the amount-in-words line use the payload-supplied section
totals (monetary fields rounded to 2 decimals; the day total taken as is),
and fall back to the sums recomputed from the listed worker rows only for
the fields the payload omits — so the printed section totals can differ
from the sum of the printed per-worker rows. -/
theorem role_section_totals_prefer_payload (sec : RoleSection) (g d n dd : ℚ) :
    (sec.totalGross = some g → (section_totals sec).totalGross = round2 g) ∧
    (sec.totalDeduction = some d → (section_totals sec).totalDeduction = round2 d) ∧
    (sec.totalNet = some n →
      (section_totals sec).totalNet = round2 n ∧ role_total_net sec = round2 n) ∧
    (sec.totalDays = some dd → (section_totals sec).totalDays = dd) ∧
    (sec.totalGross = none →
      (section_totals sec).totalGross = (sum_workers sec.workers).totalGross) ∧
    (sec.totalDeduction = none →
      (section_totals sec).totalDeduction = (sum_workers sec.workers).totalDeduction) ∧
    (sec.totalNet = none →
      (section_totals sec).totalNet = (sum_workers sec.workers).totalNet) ∧
    (sec.totalDays = none →
      (section_totals sec).totalDays = (sum_workers sec.workers).totalDays) ∧
    (∃ sec0 : RoleSection,
      (section_totals sec0).totalNet ≠ (sum_workers sec0.workers).totalNet) := by
  refine ⟨?_, ?_, ?_, ?_, ?_, ?_, ?_, ?_, ?_⟩
  · intro h; simp [section_totals, normalize_totals, h]
  · intro h; simp [section_totals, normalize_totals, h]
  · intro h
    constructor
    · simp [section_totals, normalize_totals, h]
    · simp [role_total_net, section_totals, normalize_totals, h, round2_idem]
  · intro h; simp [section_totals, normalize_totals, h]
  · intro h; simp [section_totals, normalize_totals, sum_workers, h, round2_idem]
  · intro h; simp [section_totals, normalize_totals, sum_workers, h, round2_idem]
  · intro h; simp [section_totals, normalize_totals, sum_workers, h, round2_idem]
  · intro h; simp [section_totals, normalize_totals, h]
  · refine ⟨{workers := [], totalNet := some 999}, ?_⟩
    norm_num [section_totals, normalize_totals, sum_workers, round2, rhe]

/-- Witness for C10: a section listing one worker with net 100 but
supplying `totalNet = 999` prints 999, not the recomputed 100. -/
theorem role_section_totals_prefer_payload_witness :
    ({workers := [{netSalary := some 100}], totalNet := some 999} : RoleSection).totalNet
      = some 999 ∧
    (section_totals {workers := [{netSalary := some 100}], totalNet := some 999}).totalNet
      = round2 999 ∧
    role_total_net {workers := [{netSalary := some 100}], totalNet := some 999}
      = round2 999 :=
  have h : ({workers := [{netSalary := some 100}], totalNet := some 999}
      : RoleSection).totalNet = some 999 := rfl
  ⟨h,
    ((role_section_totals_prefer_payload
      {workers := [{netSalary := some 100}], totalNet := some 999} 0 0 999 0).2.2.1 h).1,
    ((role_section_totals_prefer_payload
      {workers := [{netSalary := some 100}], totalNet := some 999} 0 0 999 0).2.2.1 h).2⟩

end GestionOV

